import Mathlib

/-
Verification of src/include/errored_status_code.hpp, the failure-only status
code wrapper `errored_status_code<DomainType>` and its type-erased
specialisation, together with their comparison operators.

Modelling conventions:
- Process termination (std::terminate in `_check`) is modelled by `none`;
  a constructor that completes yields `some` instance.
- The base `status_code`, the generic `errc` machinery and the erasure trait
  live outside src/; they are modelled from the spec at their stated boundary,
  each such definition carries a doc comment starting `Modelled from the spec:`.
- Copy and move construction and assignment coincide under value semantics and
  are embedded once each.
-/

/-- Modelled from the spec: an error domain exposes a value type, a success
predicate over values, and an identity (here a numeric tag) used by the erased
representation. -/
structure Domain where
  Value : Type
  success : Value → Bool
  id : Nat

/-- Modelled from the spec: the base `status_code<D>` is a pair of domain tag
(carried by the type index `D`) and a domain value. -/
structure status_code (D : Domain) where
  value : D.Value

/-- Modelled from the spec: `success()` is a pure predicate over the value
given the domain rules. -/
def status_code.success {D : Domain} (sc : status_code D) : Bool :=
  D.success sc.value

/-- Modelled from the spec: the generic cross-platform error enumeration
`errc`, with its success member and representative error members. -/
inductive errc where
  | success
  | resource_busy
  | not_found
  | permission_denied
deriving DecidableEq

/-- Bit pattern of an `errc` value, used by the concrete erasure witness. -/
def errc.bits : errc → Nat
  | .success => 0
  | .resource_busy => 1
  | .not_found => 2
  | .permission_denied => 3

/-- Inverse of `errc.bits` on its range. -/
def errc.unbits : Nat → errc
  | 0 => .success
  | 1 => .resource_busy
  | 2 => .not_found
  | _ => .permission_denied

/-- Modelled from the spec: the canonical domain of the generic enumeration;
its only success value is `errc::success`. -/
def generic_code_domain : Domain :=
  ⟨errc, fun v => decide (v = errc.success), 0⟩

/-- Modelled from the spec: `generic_code(e)` is the status code of the
generic domain holding `e`. -/
def generic_code (e : errc) : status_code generic_code_domain :=
  ⟨e⟩

/-- `errored_status_code<DomainType>` (src lines 41-140): a status code which
is always a failure; it owns its base `status_code` as the field `code`. -/
structure errored_status_code (D : Domain) where
  code : status_code D

/-- `success()` of the wrapper, inherited from the base (made private in the
source, kept here to state the invariant). -/
def errored_status_code.success {D : Domain} (e : errored_status_code D) : Bool :=
  e.code.success

/-- `_check` (src lines 47-53): terminate the process if the held code reports
success; termination is modelled by `none`. -/
def errored_status_code.check {D : Domain} (e : errored_status_code D) : Option (errored_status_code D) :=
  if e.code.success then none else some e

/-- `value()` (src lines 138-139): read-only access to the held `value_type`. -/
def errored_status_code.value {D : Domain} (e : errored_status_code D) : D.Value :=
  e.code.value

/-- Explicit constructors from the base status code, copy and move
(src lines 73-84): store the code, then `_check`. -/
def errored_status_code.from_status_code {D : Domain} (o : status_code D) : Option (errored_status_code D) :=
  errored_status_code.check ⟨o⟩

/-- Explicit constructors from a `value_type`, copy and move
(src lines 113-124): build the base from the value, then `_check`. -/
def errored_status_code.from_value (D : Domain) (v : D.Value) : Option (errored_status_code D) :=
  errored_status_code.check ⟨⟨v⟩⟩

/-- Implicit constructor from a foreign value through the ADL-discovered
`make_status_code` extension point (src lines 87-98): delegates to construction
from the produced status code, then runs `_check` again. -/
def errored_status_code.from_foreign {F : Type} {D : Domain} (make_status_code : F → status_code D) (f : F) : Option (errored_status_code D) :=
  match errored_status_code.from_status_code (make_status_code f) with
  | none => none
  | some e => errored_status_code.check e

/-- Defaulted default constructor (src line 62): default-constructs the base,
whose value is the default value of the domain value type (base behaviour
modelled from the spec); performs no check. -/
def errored_status_code.mk_default (D : Domain) (dflt : D.Value) : errored_status_code D :=
  ⟨⟨dflt⟩⟩

/-- Defaulted copy and move constructors (src lines 64-66): whole-value copy;
performs no check. -/
def errored_status_code.copy {D : Domain} (o : errored_status_code D) : errored_status_code D :=
  o

/-- Defaulted copy and move assignment (src lines 68-70): whole-value
replacement by the source; performs no check. -/
def errored_status_code.assign {D : Domain} (_t o : errored_status_code D) : errored_status_code D :=
  o

/-- Modelled from the spec: the erasure-compatibility trait
`detail::type_erasure_is_safe` for domain `D` at erased width `W` bytes: the
bit pattern of a value (`encode`) fits in `W` bytes and `erasure_cast`
(`decode`) reconstructs the value bit-for-bit. -/
structure ErasureSafe (D : Domain) (W : Nat) where
  encode : D.Value → Nat
  decode : Nat → D.Value
  encode_lt : ∀ v, encode v < 2 ^ (8 * W)
  decode_encode : ∀ v, decode (encode v) = v

/-- Modelled from the spec: `status_code<erased<W>>` holds an erased domain
tag, a `W`-byte payload, and the tagged domain success rule on payloads (the
vtable entry consulted by `success()`). -/
structure status_code_erased (W : Nat) where
  domain_id : Nat
  value : Nat
  domain_success : Nat → Bool

/-- Modelled from the spec: `success()` of an erased code consults the tagged
domain rule on the payload. -/
def status_code_erased.success {W : Nat} (sc : status_code_erased W) : Bool :=
  sc.domain_success sc.value

/-- Modelled from the spec: the narrowing conversion of the base library
copies the value bytes into the erased payload alongside the domain tag. -/
def status_code.erase {D : Domain} {W : Nat} (safe : ErasureSafe D W) (sc : status_code D) : status_code_erased W :=
  ⟨D.id, safe.encode sc.value, fun n => D.success (safe.decode n)⟩

/-- Modelled from the spec and the src comment at line 158: the
default-constructed erased status code is empty, and empty never reports
success. -/
def status_code_erased.empty (W : Nat) : status_code_erased W :=
  ⟨0, 0, fun _ => false⟩

/-- `errored_status_code<erased<ErasedType>>` (src lines 141-206). -/
structure errored_status_code_erased (W : Nat) where
  code : status_code_erased W

/-- `success()` of the erased wrapper (made private in the source). -/
def errored_status_code_erased.success {W : Nat} (e : errored_status_code_erased W) : Bool :=
  e.code.success

/-- `_check` of the erased wrapper (src lines 146-152). -/
def errored_status_code_erased.check {W : Nat} (e : errored_status_code_erased W) : Option (errored_status_code_erased W) :=
  if e.code.success then none else some e

/-- `value()` of the erased wrapper (src lines 204-205): the erased payload
returned by value. -/
def errored_status_code_erased.value {W : Nat} (e : errored_status_code_erased W) : Nat :=
  e.code.value

/-- Explicit constructors from a similarly erased status code, copy and move
(src lines 170-181): store the code, then `_check`. -/
def errored_status_code_erased.from_base {W : Nat} (o : status_code_erased W) : Option (errored_status_code_erased W) :=
  errored_status_code_erased.check ⟨o⟩

/-- Implicit narrowing constructor from a typed status code (src lines
184-190): available only under the storage-safety trait; erases the value,
then checks. -/
def errored_status_code_erased.from_status_code {D : Domain} {W : Nat} (safe : ErasureSafe D W) (v : status_code D) : Option (errored_status_code_erased W) :=
  errored_status_code_erased.check ⟨status_code.erase safe v⟩

/-- Implicit constructor of the erased wrapper through the ADL-discovered
`make_status_code` extension point (src lines 191-203). -/
def errored_status_code_erased.from_foreign {F : Type} {W : Nat} (make_status_code : F → status_code_erased W) (f : F) : Option (errored_status_code_erased W) :=
  match errored_status_code_erased.from_base (make_status_code f) with
  | none => none
  | some e => errored_status_code_erased.check e

/-- Defaulted default constructor of the erased wrapper (src lines 158-159):
construction to empty; performs no check. -/
def errored_status_code_erased.mk_default (W : Nat) : errored_status_code_erased W :=
  ⟨status_code_erased.empty W⟩

/-- Defaulted copy and move constructors of the erased wrapper
(src lines 160-163). -/
def errored_status_code_erased.copy {W : Nat} (o : errored_status_code_erased W) : errored_status_code_erased W :=
  o

/-- Defaulted copy and move assignment of the erased wrapper
(src lines 164-167). -/
def errored_status_code_erased.assign {W : Nat} (_t o : errored_status_code_erased W) : errored_status_code_erased W :=
  o

/-- Explicit widening constructor of the generic wrapper from an erased status
code (src lines 125-136): delegates to the value constructor on
`erasure_cast` of the payload; the domain-identity assert is debug-only and
absent in release mode, so it does not appear here; then `_check` runs
again. -/
def errored_status_code.from_erased_code {D : Domain} {W : Nat} (safe : ErasureSafe D W) (v : status_code_erased W) : Option (errored_status_code D) :=
  match errored_status_code.from_value D (safe.decode v.value) with
  | none => none
  | some e => errored_status_code.check e

/-- operator== between two errored status codes (src lines 209-212): delegates
to the left operand `equivalent()`; the domains equivalence relation is the
parameter `eqv`. -/
def beq_errored_errored {D1 D2 : Domain} (eqv : status_code D1 → status_code D2 → Bool) (a : errored_status_code D1) (b : errored_status_code D2) : Bool :=
  eqv a.code b.code

/-- operator== status code vs errored (src lines 214-217). -/
def beq_status_errored {D1 D2 : Domain} (eqv : status_code D1 → status_code D2 → Bool) (a : status_code D1) (b : errored_status_code D2) : Bool :=
  eqv a b.code

/-- operator== errored vs status code (src lines 219-222). -/
def beq_errored_status {D1 D2 : Domain} (eqv : status_code D1 → status_code D2 → Bool) (a : errored_status_code D1) (b : status_code D2) : Bool :=
  eqv a.code b

/-- operator!= between two errored status codes (src lines 224-227), written
in the source as the negation of `equivalent()`. -/
def bne_errored_errored {D1 D2 : Domain} (eqv : status_code D1 → status_code D2 → Bool) (a : errored_status_code D1) (b : errored_status_code D2) : Bool :=
  !(eqv a.code b.code)

/-- operator!= status code vs errored (src lines 229-232). -/
def bne_status_errored {D1 D2 : Domain} (eqv : status_code D1 → status_code D2 → Bool) (a : status_code D1) (b : errored_status_code D2) : Bool :=
  !(eqv a b.code)

/-- operator!= errored vs status code (src lines 234-237). -/
def bne_errored_status {D1 D2 : Domain} (eqv : status_code D1 → status_code D2 → Bool) (a : errored_status_code D1) (b : status_code D2) : Bool :=
  !(eqv a.code b)

/-- operator== errored vs errc (src lines 239-242): the errored side
`equivalent()` against `generic_code(b)`. -/
def beq_errored_errc {D : Domain} (eqv : status_code D → status_code generic_code_domain → Bool) (a : errored_status_code D) (b : errc) : Bool :=
  eqv a.code (generic_code b)

/-- operator== errc vs errored (src lines 244-247): also the errored side
`equivalent()` against `generic_code(a)`. -/
def beq_errc_errored {D : Domain} (eqv : status_code D → status_code generic_code_domain → Bool) (a : errc) (b : errored_status_code D) : Bool :=
  eqv b.code (generic_code a)

/-- operator!= errored vs errc (src lines 249-252). -/
def bne_errored_errc {D : Domain} (eqv : status_code D → status_code generic_code_domain → Bool) (a : errored_status_code D) (b : errc) : Bool :=
  !(eqv a.code (generic_code b))

/-- operator!= errc vs errored (src lines 254-257). -/
def bne_errc_errored {D : Domain} (eqv : status_code D → status_code generic_code_domain → Bool) (a : errc) (b : errored_status_code D) : Bool :=
  !(eqv b.code (generic_code a))

/-- Structural equivalence on the generic domain, a concrete domain
`equivalent()` used by witnesses. -/
def eqv_generic (a b : status_code generic_code_domain) : Bool :=
  decide (errc.bits a.value = errc.bits b.value)

/-- Concrete storage-safety witness: `errc` fits an 8-byte erased payload. -/
def generic_erasure : ErasureSafe generic_code_domain 8 where
  encode v := errc.bits v
  decode n := errc.unbits n
  encode_lt v := by cases v <;> decide
  decode_encode v := by cases v <;> rfl

/-- C1: for every domain value `v`, if the domain reports success on `v` then
the explicit value_type constructor (copy or move) terminates the process
(modelled by `none`); if not, construction completes and `value()` returns a
value equal to `v`. -/
theorem c1_value_ctor_checks (D : Domain) (v : D.Value) :
    (D.success v = true → errored_status_code.from_value D v = none) ∧
    (D.success v = false →
      ∃ e : errored_status_code D,
        errored_status_code.from_value D v = some e ∧ e.value = v) := by
  constructor
  · intro h
    simp [errored_status_code.from_value, errored_status_code.check,
      status_code.success, h]
  · intro h
    refine ⟨⟨⟨v⟩⟩, ?_, rfl⟩
    simp [errored_status_code.from_value, errored_status_code.check,
      status_code.success, h]

/-- C1 witness: in the generic domain, constructing from `errc::success`
terminates, while constructing from `errc::resource_busy` completes with that
same value. -/
theorem c1_value_ctor_checks_witness :
    errored_status_code.from_value generic_code_domain errc.success = none ∧
    ∃ e : errored_status_code generic_code_domain,
      errored_status_code.from_value generic_code_domain errc.resource_busy = some e ∧
      e.value = errc.resource_busy :=
  ⟨(c1_value_ctor_checks generic_code_domain errc.success).1 rfl,
   (c1_value_ctor_checks generic_code_domain errc.resource_busy).2 rfl⟩

/-- C2 counterexample: the defaulted default constructor performs no check.
With a domain whose value type default-constructs to the success value, the
default construction of the generic wrapper completes (no termination) and the
live instance reports success, while the checked constructor on the very same
code terminates; so the invariant is not checked at every construction entry
point, contrary to the claim. -/
theorem c2_default_ctor_unchecked_cex :
    (errored_status_code.mk_default generic_code_domain errc.success).success = true ∧
    errored_status_code.from_status_code (⟨errc.success⟩ : status_code generic_code_domain) = none :=
  ⟨rfl, rfl⟩

/-- C2 amended: the invariant is checked, with violation terminating the
process, at every non-defaulted construction entry point of both wrappers
(shown here for construction from the base status code; the remaining checked
constructors are settled by the other claims); the defaulted default, copy and
move constructors and the assignment operators perform no check: copy and
assignment are whole-value transfers that preserve the invariant of their
source, while default construction simply takes the default value of the
domain value type (generic wrapper) or the empty state (erased wrapper). -/
theorem c2_check_nondefaulted_only (D : Domain) (W : Nat) (sc : status_code D)
    (a b : errored_status_code D) (o : status_code_erased W)
    (x y : errored_status_code_erased W) (dflt : D.Value) :
    (errored_status_code.from_status_code sc =
      if sc.success then none else some ⟨sc⟩) ∧
    (errored_status_code_erased.from_base o =
      if o.success then none else some ⟨o⟩) ∧
    errored_status_code.copy a = a ∧
    errored_status_code.assign a b = b ∧
    errored_status_code_erased.copy x = x ∧
    errored_status_code_erased.assign x y = y ∧
    (errored_status_code.mk_default D dflt).success = D.success dflt ∧
    (errored_status_code_erased.mk_default W).success = false :=
  ⟨rfl, rfl, rfl, rfl, rfl, rfl, rfl, rfl⟩

/-- C3: a domain value that is storage-safe for width `W`, narrowed into the
erased wrapper and widened back with the same domain, is recovered exactly
(the construction completes because the value is a failure value). -/
theorem c3_narrow_widen_roundtrip (D : Domain) (W : Nat) (safe : ErasureSafe D W)
    (v : D.Value) (h : D.success v = false) :
    ∃ (n : errored_status_code_erased W) (e : errored_status_code D),
      errored_status_code_erased.from_status_code safe ⟨v⟩ = some n ∧
      errored_status_code.from_erased_code safe n.code = some e ∧
      e.value = v := by
  refine ⟨⟨status_code.erase safe ⟨v⟩⟩, ⟨⟨v⟩⟩, ?_, ?_, rfl⟩
  · simp [errored_status_code_erased.from_status_code,
      errored_status_code_erased.check, status_code_erased.success,
      status_code.erase, safe.decode_encode, h]
  · simp [errored_status_code.from_erased_code, status_code.erase,
      safe.decode_encode, errored_status_code.from_value,
      errored_status_code.check, status_code.success, h]

/-- C3 witness: `errc::not_found` narrowed into the 8-byte erased wrapper and
widened back through the generic domain is recovered exactly. -/
theorem c3_narrow_widen_roundtrip_witness :
    generic_code_domain.success errc.not_found = false ∧
    ∃ (n : errored_status_code_erased 8) (e : errored_status_code generic_code_domain),
      errored_status_code_erased.from_status_code generic_erasure ⟨errc.not_found⟩ = some n ∧
      errored_status_code.from_erased_code generic_erasure n.code = some e ∧
      e.value = errc.not_found :=
  ⟨rfl, c3_narrow_widen_roundtrip generic_code_domain 8 generic_erasure errc.not_found rfl⟩

/-- C4: the only exposed mutation of a live instance is whole-value
replacement by copy or move assignment from another instance, and when the
source instance is a failure the result still reports failure, for both the
generic and the erased wrapper (the base mutators `clear` and `success` are
made private by the wrappers; the base interface modelled from the spec
exposes no other mutator). -/
theorem c4_no_mutation_to_success (D : Domain) (W : Nat)
    (a b : errored_status_code D) (x y : errored_status_code_erased W)
    (hb : b.success = false) (hy : y.success = false) :
    (errored_status_code.assign a b).success = false ∧
    (errored_status_code_erased.assign x y).success = false :=
  ⟨hb, hy⟩

/-- C4 witness: assignment between concrete failure instances of both
wrappers keeps `success()` false. -/
theorem c4_no_mutation_to_success_witness :
    (⟨⟨errc.resource_busy⟩⟩ : errored_status_code generic_code_domain).success = false ∧
    (⟨⟨0, 1, fun _ => false⟩⟩ : errored_status_code_erased 8).success = false ∧
    (errored_status_code.assign
      (⟨⟨errc.not_found⟩⟩ : errored_status_code generic_code_domain)
      ⟨⟨errc.resource_busy⟩⟩).success = false ∧
    (errored_status_code_erased.assign
      (⟨⟨0, 2, fun _ => false⟩⟩ : errored_status_code_erased 8)
      ⟨⟨0, 1, fun _ => false⟩⟩).success = false :=
  ⟨rfl, rfl,
    (c4_no_mutation_to_success generic_code_domain 8
      ⟨⟨errc.not_found⟩⟩ ⟨⟨errc.resource_busy⟩⟩
      ⟨⟨0, 2, fun _ => false⟩⟩ ⟨⟨0, 1, fun _ => false⟩⟩ rfl rfl).1,
    (c4_no_mutation_to_success generic_code_domain 8
      ⟨⟨errc.not_found⟩⟩ ⟨⟨errc.resource_busy⟩⟩
      ⟨⟨0, 2, fun _ => false⟩⟩ ⟨⟨0, 1, fun _ => false⟩⟩ rfl rfl).2⟩

/-- C5: for every comparison overload and all accepted operands, `!=` equals
the boolean negation of the corresponding `==`, whatever the domains
equivalence relation is: errored vs errored, status code vs errored, errored
vs status code, errored vs errc, errc vs errored. -/
theorem c5_ne_is_negation_of_eq :
    (∀ (D1 D2 : Domain) (eqv : status_code D1 → status_code D2 → Bool)
        (a : errored_status_code D1) (b : errored_status_code D2),
      bne_errored_errored eqv a b = !(beq_errored_errored eqv a b)) ∧
    (∀ (D1 D2 : Domain) (eqv : status_code D1 → status_code D2 → Bool)
        (a : status_code D1) (b : errored_status_code D2),
      bne_status_errored eqv a b = !(beq_status_errored eqv a b)) ∧
    (∀ (D1 D2 : Domain) (eqv : status_code D1 → status_code D2 → Bool)
        (a : errored_status_code D1) (b : status_code D2),
      bne_errored_status eqv a b = !(beq_errored_status eqv a b)) ∧
    (∀ (D : Domain) (eqv : status_code D → status_code generic_code_domain → Bool)
        (a : errored_status_code D) (b : errc),
      bne_errored_errc eqv a b = !(beq_errored_errc eqv a b)) ∧
    (∀ (D : Domain) (eqv : status_code D → status_code generic_code_domain → Bool)
        (a : errc) (b : errored_status_code D),
      bne_errc_errored eqv a b = !(beq_errc_errored eqv a b)) :=
  ⟨fun _ _ _ _ _ => rfl, fun _ _ _ _ _ => rfl, fun _ _ _ _ _ => rfl,
   fun _ _ _ _ => rfl, fun _ _ _ _ => rfl⟩

/-- C6: the widening constructor from an erased status code, whose
availability is conditioned on the storage-safety trait (the `ErasureSafe`
argument), reconstructs the concrete value from the erased payload alone: the
result is unchanged under an arbitrary replacement of the erased domain tag
and of the domain success entry (no release-mode domain verification, the
assert being debug-only), and whenever the decoded payload is a failure value
the construction completes with exactly that decoded value. -/
theorem c6_widen_ignores_domain_tag (D : Domain) (W : Nat)
    (safe : ErasureSafe D W) (v : status_code_erased W) (d : Nat)
    (f : Nat → Bool) :
    errored_status_code.from_erased_code safe v =
      errored_status_code.from_erased_code safe ⟨d, v.value, f⟩ ∧
    (D.success (safe.decode v.value) = false →
      ∃ e : errored_status_code D,
        errored_status_code.from_erased_code safe v = some e ∧
        e.value = safe.decode v.value) := by
  constructor
  · rfl
  · intro h
    refine ⟨⟨⟨safe.decode v.value⟩⟩, ?_, rfl⟩
    simp [errored_status_code.from_erased_code, errored_status_code.from_value,
      errored_status_code.check, status_code.success, h]

/-- C6 witness: an erased code carrying domain tag 999 (not the generic
domain tag) and payload 2 widens through the generic domain to
`errc::not_found` all the same. -/
theorem c6_widen_ignores_domain_tag_witness :
    errored_status_code.from_erased_code generic_erasure
        (⟨999, 2, fun _ => false⟩ : status_code_erased 8) =
      errored_status_code.from_erased_code generic_erasure
        (⟨0, 2, fun _ => true⟩ : status_code_erased 8) ∧
    generic_code_domain.success (generic_erasure.decode 2) = false ∧
    ∃ e : errored_status_code generic_code_domain,
      errored_status_code.from_erased_code generic_erasure
          (⟨999, 2, fun _ => false⟩ : status_code_erased 8) = some e ∧
      e.value = generic_erasure.decode 2 :=
  ⟨(c6_widen_ignores_domain_tag generic_code_domain 8 generic_erasure
      ⟨999, 2, fun _ => false⟩ 0 (fun _ => true)).1,
   rfl,
   (c6_widen_ignores_domain_tag generic_code_domain 8 generic_erasure
      ⟨999, 2, fun _ => false⟩ 0 (fun _ => true)).2 rfl⟩

/-- C7: value access is total on every well-formed instance: the generic
wrapper `value()` returns the held domain value and the erased wrapper
`value()` returns the erased payload, in all cases without any failure path. -/
theorem c7_value_total (D : Domain) (W : Nat) (e : errored_status_code D)
    (x : errored_status_code_erased W) :
    e.value = e.code.value ∧ x.value = x.code.value :=
  ⟨rfl, rfl⟩

/-- C8: under the domain contract that the equivalence relation is reflexive
at a well-formed instance, that instance compares equal to itself through the
errored-vs-errored operator. -/
theorem c8_eq_reflexive (D : Domain)
    (eqv : status_code D → status_code D → Bool) (a : errored_status_code D)
    (hrefl : eqv a.code a.code = true) :
    beq_errored_errored eqv a a = true :=
  hrefl

/-- C8 witness: with the structural equivalence of the generic domain, a
concrete failure instance compares equal to itself. -/
theorem c8_eq_reflexive_witness :
    eqv_generic (⟨errc.not_found⟩ : status_code generic_code_domain) ⟨errc.not_found⟩ = true ∧
    beq_errored_errored eqv_generic
      (⟨⟨errc.not_found⟩⟩ : errored_status_code generic_code_domain)
      ⟨⟨errc.not_found⟩⟩ = true :=
  ⟨rfl,
   c8_eq_reflexive generic_code_domain eqv_generic ⟨⟨errc.not_found⟩⟩ rfl⟩

/-- C9: the implicit constructor through the ADL-discovered
`make_status_code` extension point produces exactly the same result as
explicitly constructing from the output of `make_status_code`, for any
foreign type and conversion, on both the generic and the erased wrapper (the
extra `_check` it runs is redundant on an already-checked instance). -/
theorem c9_foreign_transparent (F : Type) (D : Domain) (W : Nat)
    (mk : F → status_code D) (mke : F → status_code_erased W) (f : F) :
    errored_status_code.from_foreign mk f =
      errored_status_code.from_status_code (mk f) ∧
    errored_status_code_erased.from_foreign mke f =
      errored_status_code_erased.from_base (mke f) := by
  constructor
  · cases h : status_code.success (mk f) with
    | false =>
      simp [errored_status_code.from_foreign,
        errored_status_code.from_status_code, errored_status_code.check, h]
    | true =>
      simp [errored_status_code.from_foreign,
        errored_status_code.from_status_code, errored_status_code.check, h]
  · cases h : status_code_erased.success (mke f) with
    | false =>
      simp [errored_status_code_erased.from_foreign,
        errored_status_code_erased.from_base,
        errored_status_code_erased.check, h]
    | true =>
      simp [errored_status_code_erased.from_foreign,
        errored_status_code_erased.from_base,
        errored_status_code_erased.check, h]

/-- C10: the mixed comparisons with the generic enumerator are symmetric
unconditionally, with no assumption on the domains: both operand orders of
`==` coincide, as do both operand orders of `!=`, because each delegates to
the errored side equivalence against `generic_code`. -/
theorem c10_errc_comparison_symmetric (D : Domain)
    (eqv : status_code D → status_code generic_code_domain → Bool)
    (a : errored_status_code D) (b : errc) :
    beq_errored_errc eqv a b = beq_errc_errored eqv b a ∧
    bne_errored_errc eqv a b = bne_errc_errored eqv b a :=
  ⟨rfl, rfl⟩
